import Mathlib

/-!
Verification of the rapidudf core against its natural-language specification.

The definitions below are a shallow embedding of the repository's C++ source:

* `rapidudf/meta/function.cc` — `FunctionDesc::Init`, `FunctionDesc::PassArgByValue`,
  `FunctionFactory::Register`, `FunctionFactory::GetFunction`;
* `rapidudf/jit/llvm/jit.cc` — `JitCompiler::GetFunction`, `JitCompiler::CallFunction`
  (callee resolution, context-argument injection, argument casting);
* `rapidudf/functions/simd/vector_sort.cc` — the sort/select/topk/argsort family
  and their key-value variants;
* `rapidudf/memory/arena.h` / `arena.cc` — `Arena` and `ThreadCachedArena`.

Machine maps (`std::unordered_map`) are embedded as association lists,
`std::vector` as `List`, and C++ exceptions / `absl::Status` as explicit
error results.  Theorems about each specification claim follow the
definitions.
-/

namespace Rapidudf

/-- Modelled from the spec (§3 DATA MODEL): the domain type descriptor `DType`
(`rapidudf/meta/dtype.h` is not part of the provided sources).  The spec lists
the predicates the core consults: is-void, is-ptr, is-integer, is-float,
is-bit, is-string-view, is-absl-span, is-simd-vector, is-context-ptr.  Each
constructor is one predicate class; a `Context*` argument satisfies both
is-ptr and is-context-ptr. -/
inductive DType where
  | voidTy
  | intTy
  | floatTy
  | bitTy
  | ptrTy
  | contextPtrTy
  | stringViewTy
  | stdStringViewTy
  | abslSpanTy
  | simdVectorTy
  deriving DecidableEq, Repr

/-- `DType::IsPtr` — true for plain pointers and for the `Context*` handle. -/
def DType.IsPtr : DType → Bool
  | .ptrTy => true
  | .contextPtrTy => true
  | _ => false

/-- `DType::IsInteger`. -/
def DType.IsInteger : DType → Bool
  | .intTy => true
  | _ => false

/-- `DType::IsFloat`. -/
def DType.IsFloat : DType → Bool
  | .floatTy => true
  | _ => false

/-- `DType::IsBit`. -/
def DType.IsBit : DType → Bool
  | .bitTy => true
  | _ => false

/-- `DType::IsStringView`. -/
def DType.IsStringView : DType → Bool
  | .stringViewTy => true
  | _ => false

/-- `DType::IsStdStringView`. -/
def DType.IsStdStringView : DType → Bool
  | .stdStringViewTy => true
  | _ => false

/-- `DType::IsAbslSpan`. -/
def DType.IsAbslSpan : DType → Bool
  | .abslSpanTy => true
  | _ => false

/-- `DType::IsSimdVector`. -/
def DType.IsSimdVector : DType → Bool
  | .simdVectorTy => true
  | _ => false

/-- `DType::IsContextPtr`. -/
def DType.IsContextPtr : DType → Bool
  | .contextPtrTy => true
  | _ => false

/-- Modelled from the spec (§3): `CastTo(other)` states whether one DType may be
implicitly widened/reinterpreted to another (`rapidudf/meta/dtype.h` is not part
of the provided sources).  Reflexive casts always succeed; an integer widens to
a float. -/
def DType.CanCastTo (a b : DType) : Bool :=
  a = b || (a = .intTy && b = .floatTy)

/-- `FunctionDesc` (`rapidudf/meta/function.h`): name, return type, ordered
argument types, and the derived `context_arg_idx` (−1 until `Init` runs).  The
native function pointer is irrelevant to the claims and is omitted. -/
structure FunctionDesc where
  name : String
  return_type : DType
  arg_types : List DType
  context_arg_idx : Int := -1
  deriving DecidableEq, Repr

/-- The loop body of `FunctionDesc::Init` (`function.cc:104-112`): scan the
argument types; at a context-ptr argument, keep the recorded index if one was
already recorded (the duplicate is only logged), otherwise record this index. -/
def initContextLoop : List DType → Nat → Int → Int
  | [], _, acc => acc
  | t :: ts, i, acc =>
      initContextLoop ts (i + 1)
        (if t.IsContextPtr then (if acc ≠ -1 then acc else (i : Int)) else acc)

/-- `FunctionDesc::Init` (`function.cc:103-113`): derive `context_arg_idx` from
the argument types.  A second context-ptr argument only produces a log line;
no failure is reported and the first index is kept. -/
def FunctionDesc.Init (d : FunctionDesc) : FunctionDesc :=
  { d with context_arg_idx := initContextLoop d.arg_types 0 d.context_arg_idx }

/-- The per-argument register demand inside `FunctionDesc::PassArgByValue`
(`function.cc:122-129`): pointers, integers and bits take one integer register;
absl spans, string views, std string views and SIMD vectors take two; every
other class (floats in particular) takes none. -/
def requestParamRegisters (t : DType) : Nat :=
  if t.IsPtr || t.IsInteger || t.IsBit then 1
  else if t.IsAbslSpan || t.IsStringView || t.IsStdStringView || t.IsSimdVector then 2
  else 0

/-- The cumulative register demand accumulated by the loop in
`FunctionDesc::PassArgByValue` (`function.cc:119-130`). -/
def usedParamRegisters (ts : List DType) : Nat :=
  ts.foldl (fun acc t => acc + requestParamRegisters t) 0

/-- `FunctionDesc::PassArgByValue` (`function.cc:114-138`): an out-of-range
index is never byval; otherwise argument `argno` is byval exactly when it is a
two-register class and the demand of arguments `0..argno` exceeds the budget of
six integer registers. -/
def FunctionDesc.PassArgByValue (d : FunctionDesc) (argno : Nat) : Bool :=
  if argno ≥ d.arg_types.length then false
  else
    let used := usedParamRegisters (d.arg_types.take (argno + 1))
    let t := d.arg_types.getD argno .voidTy
    if t.IsSimdVector || t.IsAbslSpan || t.IsStringView || t.IsStdStringView then
      decide (used > 6)
    else false

/-- The process-wide registry `g_regs` (`function.cc:36-37`), embedded as an
association list from names to descriptors. -/
def FuncRegMap := List (String × FunctionDesc)

/-- `FunctionFactory::Register` (`function.cc:167-178`): run `Init`, reject a
duplicate name (returning failure and leaving the map unchanged), otherwise
insert.  Returns the success flag together with the updated registry. -/
def FunctionFactory.Register (regs : List (String × FunctionDesc)) (desc : FunctionDesc) :
    Bool × List (String × FunctionDesc) :=
  let d := desc.Init
  if (List.lookup d.name regs).isSome then (false, regs)
  else (true, regs ++ [(d.name, d)])

/-- `FunctionFactory::GetFunction` (`function.cc:179-188`): look the name up in
the registry. -/
def FunctionFactory.GetFunction (regs : List (String × FunctionDesc)) (name : String) :
    Option FunctionDesc :=
  List.lookup name regs

/-- A compile-time value handle (`rapidudf/jit/llvm/value.h`): the claims only
depend on its DType; `vid` distinguishes distinct handles. -/
structure Value where
  dtype : DType
  vid : Nat
  deriving DecidableEq, Repr

/-- `Value::CastTo` as consulted by `JitCompiler::CallFunction`
(`jit.cc:580-585`): produce a handle of the requested type when the cast is
feasible, otherwise fail. -/
def Value.CastTo (v : Value) (t : DType) : Option Value :=
  if v.dtype.CanCastTo t then some { v with dtype := t } else none

/-- One entry of the session's extern-function table
(`jit_session.h` / `jit.cc:316`): the registry descriptor plus the declared
module function, embedded as an opaque handle id. -/
structure ExternFunction where
  desc : FunctionDesc
  func : Nat
  deriving DecidableEq, Repr

/-- One entry of the session's compiled-function table (`jit.cc:431`):
the descriptor, the module function handle, and the bound context argument
value of that function, when it has one (`jit.cc:442`). -/
structure FunctionCompileContext where
  desc : FunctionDesc
  func : Nat
  context_arg_value : Option Value := none
  deriving DecidableEq, Repr

/-- The per-session maps consulted by call emission (`jit_session.h`):
`compile_functon_ctxs` for functions compiled from source, `extern_funcs`
for registered natives, both embedded as association lists. -/
structure JitSession where
  compile_functon_ctxs : List (String × FunctionCompileContext)
  extern_funcs : List (String × ExternFunction)
  deriving DecidableEq, Repr

/-- `JitCompiler::GetFunction` (`jit.cc:531-541`): the lookup in
`compile_functon_ctxs` at the top of the source function has an empty body, so
the function returns an entry only from `extern_funcs`. -/
def JitCompiler.GetFunction (s : JitSession) (name : String) : Option ExternFunction :=
  List.lookup name s.extern_funcs

/-- The callee-resolution prefix of `JitCompiler::CallFunction`
(`jit.cc:545-560`): first `JitCompiler::GetFunction` (the extern table), and
only when that misses, the compiled-function table; `none` when the name is in
neither. -/
def resolveCallee (s : JitSession) (name : String) : Option (FunctionDesc × Nat) :=
  match JitCompiler.GetFunction s name with
  | some f => some (f.desc, f.func)
  | none =>
    match List.lookup name s.compile_functon_ctxs with
    | some c => some (c.desc, c.func)
    | none => none

/-- Callee resolution as the specification's words describe it (§4.5 step 1):
search the compiled-function table first, then the extern-function table.
Stated only to be compared against `resolveCallee`, which is the source's
order. -/
def resolveCalleeSpecOrder (s : JitSession) (name : String) : Option (FunctionDesc × Nat) :=
  match List.lookup name s.compile_functon_ctxs with
  | some c => some (c.desc, c.func)
  | none =>
    match List.lookup name s.extern_funcs with
    | some f => some (f.desc, f.func)
    | none => none

/-- The compile errors `JitCompiler::CallFunction` can report
(`jit.cc:559-586`), each carrying the data the source formats into its
message. -/
inductive CallError where
  | noFunc (name : String)
  | argCountMismatch (expected given : Nat)
  | castFailed (name : String) (idx : Nat) (src dst : DType)
  deriving DecidableEq, Repr

/-- The context-argument injection step of `JitCompiler::CallFunction`
(`jit.cc:561-567`): when the callee declares a context argument, the caller
supplied exactly one fewer value, and the current function has a bound context
value, insert that value at `context_arg_idx`. -/
def contextAdjustArgs (desc : FunctionDesc) (ctxVal : Option Value) (args : List Value) :
    List Value :=
  if desc.context_arg_idx ≥ 0 ∧ args.length = desc.arg_types.length - 1 then
    match ctxVal with
    | some v => args.insertIdx desc.context_arg_idx.toNat v
    | none => args
  else args

/-- The argument-casting loop of `JitCompiler::CallFunction`
(`jit.cc:577-586`): cast each value whose DType differs from the declared
argument type; a failed cast is a compile error naming the index and the
DType pair. -/
def castCallArgs (name : String) (idx : Nat) :
    List Value → List DType → Except CallError (List Value)
  | [], _ => Except.ok []
  | v :: vs, [] => Except.ok (v :: vs)
  | v :: vs, t :: ts =>
    let cast := if v.dtype ≠ t then v.CastTo t else some v
    match cast with
    | none => Except.error (CallError.castFailed name idx v.dtype t)
    | some w =>
      match castCallArgs name (idx + 1) vs ts with
      | Except.error e => Except.error e
      | Except.ok ws => Except.ok (w :: ws)

/-- `JitCompiler::CallFunction` up to IR emission (`jit.cc:543-599`): resolve
the callee, inject the context argument, check the argument count, and cast
every argument to its declared type.  The result is the callee descriptor and
the final argument values handed to call emission; IR construction itself
(byval slots, operand bundles) is outside the embedded state. -/
def JitCompiler.CallFunction (s : JitSession) (cur : FunctionCompileContext)
    (name : String) (const_arg_values : List Value) :
    Except CallError (FunctionDesc × List Value) :=
  match resolveCallee s name with
  | none => Except.error (CallError.noFunc name)
  | some (desc, _f) =>
    let arg_values := contextAdjustArgs desc cur.context_arg_value const_arg_values
    if arg_values.length ≠ desc.arg_types.length then
      Except.error (CallError.argCountMismatch desc.arg_types.length arg_values.length)
    else
      match castCallArgs name 0 arg_values desc.arg_types with
      | Except.error e => Except.error e
      | Except.ok vals => Except.ok (desc, vals)

/-- The non-owning vector view `simd::Vector<T>`
(`rapidudf/types/simd/vector.h`, summarised in spec §3): element buffer plus
the readonly flag.  Elements are embedded as `Int`, which covers the integer
instantiations exactly and the float instantiations away from NaN. -/
structure SimdVector (α : Type) where
  data : List α
  readonly : Bool
  deriving DecidableEq, Repr

/-- `Context` (spec §3): the per-invocation runtime state the sort family
reads.  Only the `HasNan` flag is consulted by these helpers; arena ownership
of result buffers is a memory-lifetime detail outside the embedded state. -/
structure Context where
  has_nan : Bool
  deriving DecidableEq, Repr

/-- The element comparison used by the x86simdsort calls: ascending `≤` or, when
`descending`, the reversed order. -/
def x86Le : Bool → Int → Int → Prop
  | false, a, b => a ≤ b
  | true, a, b => b ≤ a

instance x86Le.decidableRel : (d : Bool) → DecidableRel (x86Le d)
  | false => fun a b => inferInstanceAs (Decidable (a ≤ b))
  | true => fun a b => inferInstanceAs (Decidable (b ≤ a))

instance x86Le.isTotal : (d : Bool) → IsTotal Int (x86Le d)
  | false => ⟨fun a b => le_total a b⟩
  | true => ⟨fun a b => le_total b a⟩

instance x86Le.isTrans : (d : Bool) → IsTrans Int (x86Le d)
  | false => ⟨fun _ _ _ h1 h2 => le_trans h1 h2⟩
  | true => ⟨fun _ _ _ h1 h2 => le_trans h2 h1⟩

instance x86Le.isAntisymm : (d : Bool) → IsAntisymm Int (x86Le d)
  | false => ⟨fun _ _ h1 h2 => le_antisymm h1 h2⟩
  | true => ⟨fun _ _ h1 h2 => le_antisymm h2 h1⟩

/-- Modelled from the spec (§4.6): `x86simdsort::qsort` — an in-place full sort
of the buffer under the requested direction (the external x86-simd-sort
library is not part of the sources; the NaN-aware switch is inert on the
embedded integer elements). -/
def x86Qsort (_hasnan : Bool) (descending : Bool) (l : List Int) : List Int :=
  l.insertionSort (x86Le descending)

/-- Modelled from the spec (§4.6): `x86simdsort::argsort` — the indices that
would sort the buffer under the requested direction. -/
def x86Argsort (_hasnan : Bool) (descending : Bool) (l : List Int) : List Nat :=
  (List.range l.length).insertionSort
    (fun i j => x86Le descending (l.getD i 0) (l.getD j 0))

/-- Modelled from the spec (§4.6): `x86simdsort::qselect` — partitions so the
first `k` elements are the `k` smallest (or largest) in unspecified order; the
unspecified order is modelled by the canonical fully sorted instance. -/
def x86Qselect (_hasnan : Bool) (descending : Bool) (_k : Nat) (l : List Int) : List Int :=
  l.insertionSort (x86Le descending)

/-- Modelled from the spec (§4.6): `x86simdsort::partial_qsort` — the first `k`
positions hold the sorted top-k; the unspecified tail order is modelled by the
canonical fully sorted instance. -/
def x86PartialQsort (_hasnan : Bool) (descending : Bool) (_k : Nat) (l : List Int) : List Int :=
  l.insertionSort (x86Le descending)

/-- Modelled from the spec (§4.6): `x86simdsort::argselect` — indices whose
first `k` positions pick the `k` smallest elements, in unspecified order;
modelled by the canonical fully sorted instance (ascending only, as the source
calls it only on that branch). -/
def x86Argselect (_hasnan : Bool) (_k : Nat) (l : List Int) : List Nat :=
  (List.range l.length).insertionSort
    (fun i j => x86Le false (l.getD i 0) (l.getD j 0))

/-- Modelled from the spec (§4.6): `x86simdsort::keyvalue_qsort` — sort the key
buffer and carry the value buffer along by the same permutation. -/
def x86KeyValueQsort (hasnan : Bool) (descending : Bool) (keys values : List Int) :
    List Int × List Int :=
  let idxs := x86Argsort hasnan descending keys
  (idxs.map (fun i => keys.getD i 0), idxs.map (fun i => values.getD i 0))

/-- Modelled from the spec (§4.6): `x86simdsort::keyvalue_partial_sort`,
with the unspecified tail modelled by the full key-value sort. -/
def x86KeyValuePartialSort (hasnan : Bool) (descending : Bool) (_k : Nat) (keys values : List Int) :
    List Int × List Int :=
  x86KeyValueQsort hasnan descending keys values

/-- Modelled from the spec (§4.6): `x86simdsort::keyvalue_select`, with the
unspecified order modelled by the full key-value sort. -/
def x86KeyValueSelect (hasnan : Bool) (descending : Bool) (_k : Nat) (keys values : List Int) :
    List Int × List Int :=
  x86KeyValueQsort hasnan descending keys values

/-- The runtime failure the sort helpers can raise (`THROW_READONLY_ERR`,
`rapidudf/meta/exception.h`). -/
inductive SortError where
  | readonly
  deriving DecidableEq, Repr

/-- `simd_vector_sort` (`vector_sort.cc:44-50`): refuse a readonly buffer
(leaving it untouched), otherwise sort in place. -/
def simd_vector_sort (ctx : Context) (data : SimdVector Int) (descending : Bool) :
    Option SortError × SimdVector Int :=
  if data.readonly then (some SortError.readonly, data)
  else (none, { data with data := x86Qsort ctx.has_nan descending data.data })

/-- `simd_vector_select` (`vector_sort.cc:51-57`). -/
def simd_vector_select (ctx : Context) (data : SimdVector Int) (k : Nat)
    (descending : Bool) : Option SortError × SimdVector Int :=
  if data.readonly then (some SortError.readonly, data)
  else (none, { data with data := x86Qselect ctx.has_nan descending k data.data })

/-- `simd_vector_topk` (`vector_sort.cc:58-64`). -/
def simd_vector_topk (ctx : Context) (data : SimdVector Int) (k : Nat)
    (descending : Bool) : Option SortError × SimdVector Int :=
  if data.readonly then (some SortError.readonly, data)
  else (none, { data with data := x86PartialQsort ctx.has_nan descending k data.data })

/-- `simd_vector_argsort` (`vector_sort.cc:65-72`): no readonly check; returns
a fresh context-owned index vector. -/
def simd_vector_argsort (ctx : Context) (data : SimdVector Int) (descending : Bool) :
    SimdVector Nat :=
  { data := x86Argsort ctx.has_nan descending data.data, readonly := false }

/-- `simd_vector_argselect` (`vector_sort.cc:73-84`): the descending branch
falls through to `simd_vector_argsort`; the ascending branch calls the
library's argselect. -/
def simd_vector_argselect (ctx : Context) (data : SimdVector Int) (k : Nat)
    (descending : Bool) : SimdVector Nat :=
  if descending then simd_vector_argsort ctx data descending
  else { data := x86Argselect ctx.has_nan k data.data, readonly := false }

/-- `simd_vector_sort_key_value` (`vector_sort.cc:86-96`): refuse when either
buffer is readonly (leaving both untouched), otherwise sort keys and permute
values in parallel. -/
def simd_vector_sort_key_value (ctx : Context) (key value : SimdVector Int)
    (descending : Bool) : Option SortError × SimdVector Int × SimdVector Int :=
  if key.readonly || value.readonly then (some SortError.readonly, key, value)
  else
    let r := x86KeyValueQsort ctx.has_nan descending key.data value.data
    (none, { key with data := r.1 }, { value with data := r.2 })

/-- `simd_vector_topk_key_value` (`vector_sort.cc:97-104`). -/
def simd_vector_topk_key_value (ctx : Context) (key value : SimdVector Int)
    (k : Nat) (descending : Bool) :
    Option SortError × SimdVector Int × SimdVector Int :=
  if key.readonly || value.readonly then (some SortError.readonly, key, value)
  else
    let r := x86KeyValuePartialSort ctx.has_nan descending k key.data value.data
    (none, { key with data := r.1 }, { value with data := r.2 })

/-- `simd_vector_select_key_value` (`vector_sort.cc:105-112`). -/
def simd_vector_select_key_value (ctx : Context) (key value : SimdVector Int)
    (k : Nat) (descending : Bool) :
    Option SortError × SimdVector Int × SimdVector Int :=
  if key.readonly || value.readonly then (some SortError.readonly, key, value)
  else
    let r := x86KeyValueSelect ctx.has_nan descending k key.data value.data
    (none, { key with data := r.1 }, { value with data := r.2 })

/-- Modelled from the spec (§3, §4.1): the underlying bump allocator
`folly::Arena` (`rapidudf/memory/folly_arena.h` is not part of the provided
sources).  `allocate(n)` hands out `n` more bytes, `bytesUsed()` reports the
bytes handed out, `clear()` releases everything. -/
structure FollyArena where
  bytes_used : Nat := 0
  deriving DecidableEq, Repr

/-- Modelled from the spec: `folly::Arena::allocate`. -/
def FollyArena.allocate (a : FollyArena) (n : Nat) : FollyArena :=
  { bytes_used := a.bytes_used + n }

/-- Modelled from the spec: `folly::Arena::clear` releases all memory. -/
def FollyArena.clear (_a : FollyArena) : FollyArena :=
  { bytes_used := 0 }

/-- Modelled from the spec: `folly::Arena::bytesUsed`. -/
def FollyArena.bytesUsed (a : FollyArena) : Nat :=
  a.bytes_used

/-- `Arena` (`arena.h:66-111`): a wrapper owning one `folly::Arena`. -/
structure Arena where
  arena : FollyArena
  deriving DecidableEq, Repr

/-- `Arena::Allocate` (`arena.h:90`). -/
def Arena.Allocate (a : Arena) (n : Nat) : Arena :=
  { arena := a.arena.allocate n }

/-- `Arena::Reset` (`arena.h:91`): forwards to `clear`. -/
def Arena.Reset (a : Arena) : Arena :=
  { arena := a.arena.clear }

/-- `Arena::MemoryUsage` (`arena.h:93`): forwards to `bytesUsed`. -/
def Arena.MemoryUsage (a : Arena) : Nat :=
  a.arena.bytesUsed

/-- `ThreadCachedArena` (`arena.h:113-162`): the mutex-guarded list of every
per-thread `Arena` it owns. -/
structure ThreadCachedArena where
  all_arenas : List Arena
  deriving DecidableEq, Repr

/-- `ThreadCachedArena::Reset` (`arena.cc:35-40`): reset every owned arena. -/
def ThreadCachedArena.Reset (t : ThreadCachedArena) : ThreadCachedArena :=
  { all_arenas := t.all_arenas.map Arena.Reset }

/-- `ThreadCachedArena::MemoryUsage` (`arena.cc:42-49`): sum the usage of every
owned arena. -/
def ThreadCachedArena.MemoryUsage (t : ThreadCachedArena) : Nat :=
  t.all_arenas.foldl (fun total a => total + a.MemoryUsage) 0

/-- A descriptor with five one-register arguments followed by two SIMD-vector
arguments; argument 6 overflows the six-register budget. -/
def descBudget : FunctionDesc :=
  { name := "w1", return_type := DType.voidTy,
    arg_types := [DType.intTy, DType.intTy, DType.intTy, DType.intTy, DType.intTy,
                  DType.simdVectorTy, DType.simdVectorTy] }

/-- A registered descriptor named `k`. -/
def descFirstK : FunctionDesc :=
  { name := "k", return_type := DType.intTy, arg_types := [] }

/-- A second, different descriptor reusing the name `k`. -/
def descSecondK : FunctionDesc :=
  { name := "k", return_type := DType.floatTy, arg_types := [DType.floatTy] }

/-- A registry already holding `descFirstK`. -/
def regsWithK : List (String × FunctionDesc) := [("k", descFirstK)]

/-- A descriptor with two context-ptr arguments. -/
def descDupCtx : FunctionDesc :=
  { name := "dup", return_type := DType.voidTy,
    arg_types := [DType.contextPtrTy, DType.contextPtrTy] }

/-- A descriptor with a single context-ptr argument in second position. -/
def descOneCtx : FunctionDesc :=
  { name := "s", return_type := DType.voidTy,
    arg_types := [DType.intTy, DType.contextPtrTy] }

/-- A compiled-function entry for the name `f`. -/
def compiledEntryF : FunctionCompileContext :=
  { desc := { name := "f", return_type := DType.intTy, arg_types := [DType.intTy] },
    func := 1 }

/-- An extern-function entry for the same name `f`, with a different
signature. -/
def externEntryF : ExternFunction :=
  { desc := { name := "f", return_type := DType.floatTy, arg_types := [DType.floatTy] },
    func := 2 }

/-- A session holding the name `f` in both tables. -/
def sessBoth : JitSession :=
  { compile_functon_ctxs := [("f", compiledEntryF)], extern_funcs := [("f", externEntryF)] }

/-- A session with empty tables. -/
def sessEmpty : JitSession :=
  { compile_functon_ctxs := [], extern_funcs := [] }

/-- A current-function compile context with no bound context value. -/
def curPlain : FunctionCompileContext :=
  { desc := { name := "cur", return_type := DType.voidTy, arg_types := [] }, func := 0 }

/-- A callee declaring a context-ptr first argument (`context_arg_idx = 0`). -/
def descCtxCallee : FunctionDesc :=
  { name := "g", return_type := DType.voidTy,
    arg_types := [DType.contextPtrTy, DType.intTy], context_arg_idx := 0 }

/-- A session whose extern table binds `descCtxCallee` under `g`. -/
def sessCtx : JitSession :=
  { compile_functon_ctxs := [], extern_funcs := [("g", { desc := descCtxCallee, func := 3 })] }

/-- The context value bound in the current function. -/
def ctxValue : Value := { dtype := DType.contextPtrTy, vid := 7 }

/-- A current-function compile context with a bound context value. -/
def curWithCtx : FunctionCompileContext :=
  { desc := { name := "cur2", return_type := DType.voidTy, arg_types := [DType.contextPtrTy],
              context_arg_idx := 0 },
    func := 0, context_arg_value := some ctxValue }

/-- An integer-typed argument value. -/
def intArgValue : Value := { dtype := DType.intTy, vid := 9 }

/-- A runtime context with the NaN flag off. -/
def ctxNoNan : Context := { has_nan := false }

/-- A readonly three-element vector. -/
def roVec : SimdVector Int := { data := [3, 1, 2], readonly := true }

/-- A writable one-element vector. -/
def rwVec : SimdVector Int := { data := [2], readonly := false }

/-- A writable three-element vector. -/
def rwVec3 : SimdVector Int := { data := [3, 1, 2], readonly := false }

/-- An arena with five bytes handed out. -/
def arenaUsed : Arena := { arena := { bytes_used := 5 } }

/-- A thread-cached arena owning one used arena. -/
def tcaUsed : ThreadCachedArena := { all_arenas := [{ arena := { bytes_used := 3 } }] }

/-- The index of the first context-ptr argument, or −1 when there is none:
the characterization of the derived `context_arg_idx` used to state the
amended C5. -/
def firstContextArgIdx (ts : List DType) : Int :=
  match ts.findIdx? DType.IsContextPtr with
  | some j => (j : Int)
  | none => -1

lemma foldl_add_request (ts : List DType) (acc : Nat) :
    ts.foldl (fun a t => a + requestParamRegisters t) acc
      = acc + (ts.map requestParamRegisters).sum := by
  induction ts generalizing acc with
  | nil => simp
  | cons t ts ih => simp [ih, Nat.add_assoc]

lemma usedParamRegisters_eq_sum (ts : List DType) :
    usedParamRegisters ts = (ts.map requestParamRegisters).sum := by
  simp [usedParamRegisters, foldl_add_request]

/-- C1: for every `FunctionDesc` and every argument index `i` within its
arguments, `PassArgByValue i` returns true iff the DType of argument `i` is one
of absl-span, string-view, std-string-view or simd-vector, and the cumulative
integer-register demand of arguments `0..i` (one register per pointer, integer
or bit argument, two per span, string view or SIMD-vector argument, none
otherwise) exceeds the budget of six registers. -/
theorem pass_arg_by_value_iff_budget (d : FunctionDesc) (i : Nat)
    (h : i < d.arg_types.length) :
    d.PassArgByValue i = true ↔
      (((d.arg_types.getD i DType.voidTy).IsAbslSpan = true ∨
        (d.arg_types.getD i DType.voidTy).IsStringView = true ∨
        (d.arg_types.getD i DType.voidTy).IsStdStringView = true ∨
        (d.arg_types.getD i DType.voidTy).IsSimdVector = true) ∧
       6 < ((d.arg_types.take (i + 1)).map requestParamRegisters).sum) := by
  have hnl : ¬ i ≥ d.arg_types.length := not_le.mpr h
  simp only [FunctionDesc.PassArgByValue, hnl, if_false, usedParamRegisters_eq_sum]
  by_cases htwo : ((d.arg_types.getD i DType.voidTy).IsSimdVector ||
      (d.arg_types.getD i DType.voidTy).IsAbslSpan ||
      (d.arg_types.getD i DType.voidTy).IsStringView ||
      (d.arg_types.getD i DType.voidTy).IsStdStringView) = true
  · rw [if_pos htwo]
    simp only [decide_eq_true_eq]
    constructor
    · intro hgt
      refine ⟨?_, hgt⟩
      simp only [Bool.or_eq_true] at htwo
      tauto
    · intro hc
      exact hc.2
  · rw [if_neg htwo]
    constructor
    · intro hfalse
      exact absurd hfalse (by simp)
    · intro hc
      exfalso
      apply htwo
      simp only [Bool.or_eq_true]
      rcases hc.1 with hcl | hcl | hcl | hcl <;> tauto

/-- C1 witness: argument 6 of `descBudget` is a SIMD vector and arguments 0..6
demand nine registers, so it is passed byval. -/
theorem pass_arg_by_value_iff_budget_witness :
    6 < descBudget.arg_types.length ∧
      (descBudget.PassArgByValue 6 = true ↔
        (((descBudget.arg_types.getD 6 DType.voidTy).IsAbslSpan = true ∨
          (descBudget.arg_types.getD 6 DType.voidTy).IsStringView = true ∨
          (descBudget.arg_types.getD 6 DType.voidTy).IsStdStringView = true ∨
          (descBudget.arg_types.getD 6 DType.voidTy).IsSimdVector = true) ∧
         6 < ((descBudget.arg_types.take 7).map requestParamRegisters).sum)) :=
  ⟨by decide, pass_arg_by_value_iff_budget descBudget 6 (by decide)⟩

/-- C10: a DType belonging to none of the register classes consulted by
`PassArgByValue` requests zero registers, and appending such an argument leaves
the cumulative register demand unchanged; in particular scalar floats never
consume any of the six-register integer budget. -/
theorem nonregister_class_requests_zero (t : DType)
    (h1 : t.IsPtr = false) (h2 : t.IsInteger = false) (h3 : t.IsBit = false)
    (h4 : t.IsAbslSpan = false) (h5 : t.IsStringView = false)
    (h6 : t.IsStdStringView = false) (h7 : t.IsSimdVector = false) :
    requestParamRegisters t = 0 ∧
      ∀ pre : List DType, usedParamRegisters (pre ++ [t]) = usedParamRegisters pre := by
  have hz : requestParamRegisters t = 0 := by
    simp [requestParamRegisters, h1, h2, h3, h4, h5, h6, h7]
  refine ⟨hz, fun pre => ?_⟩
  simp [usedParamRegisters, List.foldl_append, hz]

/-- C10 witness: a scalar float requests zero registers and does not change the
cumulative register demand. -/
theorem nonregister_class_requests_zero_witness :
    requestParamRegisters DType.floatTy = 0 ∧
      ∀ pre : List DType,
        usedParamRegisters (pre ++ [DType.floatTy]) = usedParamRegisters pre :=
  nonregister_class_requests_zero DType.floatTy rfl rfl rfl rfl rfl rfl rfl

lemma FunctionDesc.Init_name (d : FunctionDesc) : (FunctionDesc.Init d).name = d.name := rfl

/-- C4: registering a second descriptor under a name already present in the
registry returns failure, leaves the registry unchanged, and the first
registration remains the one retrievable by that name. -/
theorem register_duplicate_name_rejected (regs : List (String × FunctionDesc))
    (name : String) (existing d : FunctionDesc)
    (hfound : FunctionFactory.GetFunction regs name = some existing)
    (hname : d.name = name) :
    (FunctionFactory.Register regs d).1 = false ∧
      (FunctionFactory.Register regs d).2 = regs ∧
      FunctionFactory.GetFunction (FunctionFactory.Register regs d).2 name = some existing := by
  have hf2 : List.lookup name regs = some existing := hfound
  have hlk : List.lookup (FunctionDesc.Init d).name regs = some existing := by
    rw [FunctionDesc.Init_name, hname]
    exact hf2
  refine ⟨?_, ?_, ?_⟩ <;>
    simp [FunctionFactory.Register, FunctionFactory.GetFunction, hlk, hf2]

/-- C4 witness: registering `descSecondK` over the name `k` fails and
`descFirstK` stays retrievable. -/
theorem register_duplicate_name_rejected_witness :
    (FunctionFactory.Register regsWithK descSecondK).1 = false ∧
      (FunctionFactory.Register regsWithK descSecondK).2 = regsWithK ∧
      FunctionFactory.GetFunction (FunctionFactory.Register regsWithK descSecondK).2 "k" =
        some descFirstK :=
  register_duplicate_name_rejected regsWithK "k" descFirstK descSecondK (by decide) rfl

/-- C6: every in-place sort-family helper raises the readonly failure on a
readonly input vector and returns every buffer unchanged. -/
theorem sort_family_readonly_guard (ctx : Context) (data key value : SimdVector Int)
    (k : Nat) (descending : Bool) :
    (data.readonly = true →
      simd_vector_sort ctx data descending = (some SortError.readonly, data) ∧
      simd_vector_select ctx data k descending = (some SortError.readonly, data) ∧
      simd_vector_topk ctx data k descending = (some SortError.readonly, data)) ∧
    (key.readonly = true ∨ value.readonly = true →
      simd_vector_sort_key_value ctx key value descending =
        (some SortError.readonly, key, value) ∧
      simd_vector_topk_key_value ctx key value k descending =
        (some SortError.readonly, key, value) ∧
      simd_vector_select_key_value ctx key value k descending =
        (some SortError.readonly, key, value)) := by
  constructor
  · intro h
    refine ⟨?_, ?_, ?_⟩ <;>
      simp [simd_vector_sort, simd_vector_select, simd_vector_topk, h]
  · intro h
    have hb : (key.readonly || value.readonly) = true := by
      rcases h with h | h <;> simp [h]
    refine ⟨?_, ?_, ?_⟩ <;>
      simp [simd_vector_sort_key_value, simd_vector_topk_key_value,
        simd_vector_select_key_value, hb]

/-- C6 witness: sorting the readonly vector `roVec` raises the readonly failure
and leaves the buffers unchanged, alone and as a key-value pair. -/
theorem sort_family_readonly_guard_witness :
    simd_vector_sort ctxNoNan roVec false = (some SortError.readonly, roVec) ∧
      simd_vector_sort_key_value ctxNoNan roVec rwVec false =
        (some SortError.readonly, roVec, rwVec) := by
  have h := sort_family_readonly_guard ctxNoNan roVec roVec rwVec 1 false
  exact ⟨(h.1 rfl).1, (h.2 (Or.inl rfl)).1⟩

/-- C7: `argselect` with `descending = true` returns exactly the result of
`argsort` with `descending = true`; the requested `k` has no effect. -/
theorem argselect_descending_degrades_to_argsort (ctx : Context)
    (data : SimdVector Int) (k : Nat) :
    simd_vector_argselect ctx data k true = simd_vector_argsort ctx data true := by
  simp [simd_vector_argselect]

lemma foldl_usage_map_reset (l : List Arena) (acc : Nat) :
    (l.map Arena.Reset).foldl (fun total a => total + a.MemoryUsage) acc = acc := by
  induction l generalizing acc with
  | nil => rfl
  | cons a l ih =>
    have hz : acc + (Arena.Reset a).MemoryUsage = acc := rfl
    simp only [List.map_cons, List.foldl_cons]
    rw [hz]
    exact ih acc

/-- C9: after `Reset`, an `Arena` reports zero memory usage; after `Reset` on a
`ThreadCachedArena`, every owned arena reports zero, so the total is zero. -/
theorem reset_zeroes_memory_usage (a : Arena) (t : ThreadCachedArena) :
    (a.Reset).MemoryUsage = 0 ∧
      (∀ ar ∈ (t.Reset).all_arenas, ar.MemoryUsage = 0) ∧
      (t.Reset).MemoryUsage = 0 := by
  refine ⟨rfl, ?_, ?_⟩
  · intro ar har
    simp only [ThreadCachedArena.Reset, List.mem_map] at har
    obtain ⟨x, _, rfl⟩ := har
    rfl
  · simp [ThreadCachedArena.Reset, ThreadCachedArena.MemoryUsage, foldl_usage_map_reset]

/-- C9 witness: resetting the used arena and the used thread-cached arena zeroes
every reported usage. -/
theorem reset_zeroes_memory_usage_witness :
    (arenaUsed.Reset).MemoryUsage = 0 ∧
      (Arena.Reset { arena := { bytes_used := 3 } }).MemoryUsage = 0 ∧
      (tcaUsed.Reset).MemoryUsage = 0 := by
  have h := reset_zeroes_memory_usage arenaUsed tcaUsed
  exact ⟨h.1, h.2.1 (Arena.Reset { arena := { bytes_used := 3 } }) (by decide), h.2.2⟩

lemma initContextLoop_stable (ts : List DType) :
    ∀ (i : Nat) (acc : Int), acc ≠ -1 → initContextLoop ts i acc = acc := by
  induction ts with
  | nil => intro i acc _; rfl
  | cons t ts ih =>
    intro i acc h
    simp only [initContextLoop]
    by_cases hc : t.IsContextPtr = true
    · rw [if_pos hc, if_pos h]
      exact ih _ _ h
    · rw [if_neg hc]
      exact ih _ _ h

lemma initContextLoop_findIdx (ts : List DType) :
    ∀ i : Nat, initContextLoop ts i (-1) =
      (match ts.findIdx? DType.IsContextPtr i with
       | some j => (j : Int)
       | none => -1) := by
  induction ts with
  | nil => intro i; rfl
  | cons t ts ih =>
    intro i
    simp only [initContextLoop, List.findIdx?_cons]
    by_cases hc : t.IsContextPtr = true
    · rw [if_pos hc, if_pos hc, if_neg (by simp)]
      exact initContextLoop_stable ts (i + 1) (i : Int) (by omega)
    · rw [if_neg hc, if_neg hc]
      exact ih (i + 1)

/-- C5 counterexample: registering the descriptor `descDupCtx`, whose argument
types contain two context-ptr arguments, succeeds — `Register` returns true and
the descriptor is retrievable — and `context_arg_idx` is set to the first
context-ptr index rather than the registration being an error. -/
theorem register_two_context_args_succeeds :
    (FunctionFactory.Register [] descDupCtx).1 = true ∧
      FunctionFactory.GetFunction (FunctionFactory.Register [] descDupCtx).2 "dup" =
        some (FunctionDesc.Init descDupCtx) ∧
      (FunctionDesc.Init descDupCtx).context_arg_idx = 0 := by
  decide

lemma lookup_append_of_none {α β : Type} [BEq α] (l1 l2 : List (α × β)) (k : α)
    (h : List.lookup k l1 = none) : List.lookup k (l1 ++ l2) = List.lookup k l2 := by
  induction l1 with
  | nil => simp
  | cons p l ih =>
    obtain ⟨a, b⟩ := p
    by_cases hk : (k == a) = true <;> simp [List.lookup, hk] at h ⊢
    exact ih h

/-- C5 amended: a duplicate context-ptr argument is only logged; registering a
fresh name always succeeds, the initialized descriptor becomes retrievable, and
its `context_arg_idx` is the index of the first context-ptr argument, or −1
when no argument is a context-ptr. -/
theorem register_sets_first_context_idx (d : FunctionDesc)
    (regs : List (String × FunctionDesc))
    (hinit : d.context_arg_idx = -1)
    (hfresh : List.lookup d.name regs = none) :
    (FunctionFactory.Register regs d).1 = true ∧
      FunctionFactory.GetFunction (FunctionFactory.Register regs d).2 d.name =
        some (FunctionDesc.Init d) ∧
      (FunctionDesc.Init d).context_arg_idx = firstContextArgIdx d.arg_types := by
  have hidx : (FunctionDesc.Init d).context_arg_idx = firstContextArgIdx d.arg_types := by
    rw [show (FunctionDesc.Init d).context_arg_idx
          = initContextLoop d.arg_types 0 d.context_arg_idx from rfl,
        hinit, initContextLoop_findIdx]
    rfl
  have hfresh2 : List.lookup (FunctionDesc.Init d).name regs = none := by
    rw [FunctionDesc.Init_name]; exact hfresh
  refine ⟨?_, ?_, hidx⟩
  · simp [FunctionFactory.Register, hfresh2]
  · simp only [FunctionFactory.Register, FunctionFactory.GetFunction, hfresh2,
      Option.isSome_none, Bool.false_eq_true, if_false]
    rw [show d.name = (FunctionDesc.Init d).name from rfl]
    rw [lookup_append_of_none _ _ _ hfresh2]
    simp [List.lookup]

/-- C5 amended witness: registering `descOneCtx` (one context-ptr argument at
index 1) succeeds and records index 1. -/
theorem register_sets_first_context_idx_witness :
    (FunctionFactory.Register [] descOneCtx).1 = true ∧
      FunctionFactory.GetFunction (FunctionFactory.Register [] descOneCtx).2
          descOneCtx.name = some (FunctionDesc.Init descOneCtx) ∧
      (FunctionDesc.Init descOneCtx).context_arg_idx =
        firstContextArgIdx descOneCtx.arg_types :=
  register_sets_first_context_idx descOneCtx [] rfl rfl

/-- C2 counterexample: in a session holding the name `f` in both tables, call
resolution returns the extern-function binding, not the compiled-function one,
so the compiled table is not searched first. -/
theorem call_resolution_order_counterexample :
    resolveCallee sessBoth "f" = some (externEntryF.desc, externEntryF.func) ∧
      resolveCalleeSpecOrder sessBoth "f" = some (compiledEntryF.desc, compiledEntryF.func) ∧
      resolveCallee sessBoth "f" ≠ resolveCalleeSpecOrder sessBoth "f" := by
  decide

/-- C2 amended: call emission resolves the callee by searching first the
extern-function table and then the session's compiled-function table; a name
found in neither is a compile error naming the missing function. -/
theorem call_resolution_extern_first (s : JitSession) (name : String)
    (cur : FunctionCompileContext) (args : List Value) :
    (∀ e, List.lookup name s.extern_funcs = some e →
        resolveCallee s name = some (e.desc, e.func)) ∧
    (List.lookup name s.extern_funcs = none →
      ∀ c, List.lookup name s.compile_functon_ctxs = some c →
        resolveCallee s name = some (c.desc, c.func)) ∧
    (List.lookup name s.extern_funcs = none →
      List.lookup name s.compile_functon_ctxs = none →
      JitCompiler.CallFunction s cur name args = Except.error (CallError.noFunc name)) := by
  refine ⟨?_, ?_, ?_⟩
  · intro e he
    simp [resolveCallee, JitCompiler.GetFunction, he]
  · intro he c hc
    simp [resolveCallee, JitCompiler.GetFunction, he, hc]
  · intro he hc
    simp [JitCompiler.CallFunction, resolveCallee, JitCompiler.GetFunction, he, hc]

/-- C2 amended witness: calling an unknown name in an empty session is the
compile error naming that function. -/
theorem call_resolution_extern_first_witness :
    JitCompiler.CallFunction sessEmpty curPlain "h" [] =
      Except.error (CallError.noFunc "h") :=
  (call_resolution_extern_first sessEmpty "h" curPlain []).2.2 rfl rfl

/-- C3: when the resolved callee declares a context-ptr argument at index `i`
and the caller supplied one fewer value than declared, the current function's
context value is inserted at position `i`, and call emission proceeds with the
argument-casting stage on the extended list. -/
theorem call_injects_context_arg (s : JitSession) (cur : FunctionCompileContext)
    (name : String) (args : List Value) (desc : FunctionDesc) (f : Nat)
    (v : Value) (i : Nat)
    (hres : resolveCallee s name = some (desc, f))
    (hidx : desc.context_arg_idx = (i : Int))
    (hlt : i < desc.arg_types.length)
    (hcount : args.length + 1 = desc.arg_types.length)
    (hctx : cur.context_arg_value = some v) :
    JitCompiler.CallFunction s cur name args =
      (match castCallArgs name 0 (args.insertIdx i v) desc.arg_types with
       | Except.error e => Except.error e
       | Except.ok vals => Except.ok (desc, vals)) := by
  have hadj : contextAdjustArgs desc cur.context_arg_value args = args.insertIdx i v := by
    have hcond : desc.context_arg_idx ≥ 0 ∧ args.length = desc.arg_types.length - 1 := by
      constructor
      · rw [hidx]; omega
      · omega
    simp only [contextAdjustArgs]
    rw [if_pos hcond, hctx]
    rw [hidx]
    rfl
  have hlen : (args.insertIdx i v).length = desc.arg_types.length := by
    rw [List.length_insertIdx i args (by omega)]
    omega
  simp only [JitCompiler.CallFunction, hres, hadj]
  rw [if_neg (by simp [hlen])]

/-- C3 witness: calling `g` (context-ptr at index 0, then an int) with the
single int argument inserts the current context value at index 0. -/
theorem call_injects_context_arg_witness :
    JitCompiler.CallFunction sessCtx curWithCtx "g" [intArgValue] =
      (match castCallArgs "g" 0 ([intArgValue].insertIdx 0 ctxValue)
          descCtxCallee.arg_types with
       | Except.error e => Except.error e
       | Except.ok vals => Except.ok (descCtxCallee, vals)) :=
  call_injects_context_arg sessCtx curWithCtx "g" [intArgValue] descCtxCallee 3
    ctxValue 0 (by decide) rfl (by decide) rfl rfl

lemma map_getD_range (l : List Int) :
    (List.range l.length).map (fun i => l.getD i 0) = l := by
  induction l with
  | nil => rfl
  | cons x xs ih =>
    rw [List.length_cons, List.range_succ_eq_map]
    simp only [List.map_cons, List.map_map]
    have hcomp : ∀ a ∈ List.range xs.length,
        ((fun i => (x :: xs).getD i 0) ∘ (fun n => n + 1)) a
          = (fun i => xs.getD i 0) a := fun a _ => rfl
    rw [List.map_congr_left hcomp, ih]
    rfl

lemma argsort_map_sorts (r : Int → Int → Prop) [DecidableRel r] [IsTotal Int r]
    [IsTrans Int r] [IsAntisymm Int r] (l : List Int) :
    ((List.range l.length).insertionSort
        (fun i j => r (l.getD i 0) (l.getD j 0))).map (fun i => l.getD i 0)
      = l.insertionSort r := by
  haveI : IsTotal Nat (fun i j : Nat => r (l.getD i 0) (l.getD j 0)) :=
    ⟨fun _ _ => IsTotal.total (r := r) _ _⟩
  haveI : IsTrans Nat (fun i j : Nat => r (l.getD i 0) (l.getD j 0)) :=
    ⟨fun _ _ _ hab hbc => IsTrans.trans (r := r) _ _ _ hab hbc⟩
  apply List.eq_of_perm_of_sorted (r := r)
  · have h1 : List.Perm
        (((List.range l.length).insertionSort
            (fun i j => r (l.getD i 0) (l.getD j 0))).map (fun i => l.getD i 0))
        ((List.range l.length).map (fun i => l.getD i 0)) :=
      (List.perm_insertionSort _ (List.range l.length)).map _
    rw [map_getD_range] at h1
    exact h1.trans (List.perm_insertionSort r l).symm
  · exact List.Pairwise.map _ (fun _ _ h => h)
      (List.sorted_insertionSort _ (List.range l.length))
  · exact List.sorted_insertionSort r l

lemma x86_argsort_applied (hasnan descending : Bool) (l : List Int) :
    (x86Argsort hasnan descending l).map (fun i => l.getD i 0)
      = x86Qsort hasnan descending l := by
  cases descending
  · exact argsort_map_sorts (x86Le false) l
  · exact argsort_map_sorts (x86Le true) l

/-- C8: for a non-readonly vector, the in-place `sort` produces exactly the
buffer obtained by applying the index permutation returned by `argsort` (same
`descending` flag) to the original data; the in-place sort succeeds with no
error. -/
theorem argsort_permutation_gives_sort (ctx : Context) (data : SimdVector Int)
    (descending : Bool) (h : data.readonly = false) :
    simd_vector_sort ctx data descending =
      (none, { data with data := ((simd_vector_argsort ctx data descending).data.map
        (fun i => data.data.getD i 0)) }) := by
  rw [simd_vector_sort, if_neg (by simp [h])]
  rw [simd_vector_argsort]
  rw [x86_argsort_applied]

/-- C8 witness: sorting the writable vector `[3, 1, 2]` ascending equals
applying the `argsort` permutation to it. -/
theorem argsort_permutation_gives_sort_witness :
    simd_vector_sort ctxNoNan rwVec3 false =
      (none, { rwVec3 with data := ((simd_vector_argsort ctxNoNan rwVec3 false).data.map
        (fun i => rwVec3.data.getD i 0)) }) :=
  argsort_permutation_gives_sort ctxNoNan rwVec3 false rfl

end Rapidudf
